import Mathlib

/-!
Shallow embedding of the recommendation calculator of the
fertilizer-recommendation app: the function `generateRecommendations`
of the main page component, together with the static fallback result
built in `handleSubmit`.

Numbers are modelled as rationals: every constant appearing in the
source is an exact decimal, and every operation used (addition,
multiplication, absolute value, `Math.min`, comparisons, and
`Math.round` on these inputs) is exact, so ℚ reproduces the JavaScript
number semantics on this code.  JavaScript `x || d` on an optional
number is `d` exactly when `x` is `undefined` or `0`; `jsOr` mirrors
that.  `Math.round x` is `⌊x + 1/2⌋` (round half toward +∞).
-/

/-- The `SoilData` record of the source: four optional numeric fields
and an optional location string. -/
structure SoilData where
  pH : Option ℚ := none
  nitrogen : Option ℚ := none
  phosphorus : Option ℚ := none
  potassium : Option ℚ := none
  location : Option String := none
deriving DecidableEq

/-- One entry of the `recommendedCrops` array. -/
structure CropSuggestion where
  name : String
  suitability : ℚ
  expectedYield : String
deriving DecidableEq

/-- The `fertilizerRecommendation` record of the result. -/
structure FertilizerRecommendation where
  npkRatio : String
  quantity : String
  estimatedCost : String
deriving DecidableEq

/-- The `soilHealth` record of the result. -/
structure SoilHealth where
  status : String
  improvements : List String
deriving DecidableEq

/-- The full result object returned by the calculator. -/
structure Recommendations where
  recommendedCrops : List CropSuggestion
  fertilizerRecommendation : FertilizerRecommendation
  soilHealth : SoilHealth
deriving DecidableEq

/-- JavaScript `x || d` for an optional number: both `undefined` and `0`
are falsy, so they are replaced by the default `d`. -/
def jsOr (x : Option ℚ) (d : ℚ) : ℚ :=
  match x with
  | none => d
  | some v => if v = 0 then d else v

/-- JavaScript `Math.round`: round half toward positive infinity. -/
def jsRound (q : ℚ) : ℤ := ⌊q + 1/2⌋

/-- The recommendation calculator, translated statement by statement
from the source's `generateRecommendations`.  Sequential reassignments
(`improvements.push`, the `nRatio`/`pRatio`/`kRatio` overwrites) become
`let`-shadowing in the same order as the source. -/
def generateRecommendations (soilData : SoilData) : Recommendations :=
  let pH := jsOr soilData.pH (13/2)
  let nitrogen := jsOr soilData.nitrogen (4/5)
  let phosphorus := jsOr soilData.phosphorus (3/20)
  let potassium := jsOr soilData.potassium (9/10)
  let soilStatus :=
    if pH < 6 then "Acidic" else if pH > 15/2 then "Alkaline" else "Good"
  let improvements : List String :=
    (if pH < 6 then ["Apply lime to increase pH"]
      else if pH > 15/2 then ["Apply sulfur to decrease pH"] else [])
    ++ (if nitrogen < 1/2 then ["Increase nitrogen with organic compost"] else [])
    ++ (if phosphorus < 1/10 then ["Add phosphate fertilizer"] else [])
    ++ (if potassium < 4/5 then ["Apply potassium-rich fertilizer"] else [])
  let improvements :=
    if improvements.length = 0 then
      ["Maintain current nutrient balance", "Regular soil testing recommended"]
    else improvements
  let recommendedCrops : List CropSuggestion :=
    (if 6 ≤ pH ∧ pH ≤ 7 ∧ (3:ℚ)/5 ≤ nitrogen then
      [{ name := "Tomato",
         suitability := min 95 (60 + nitrogen * 30 + (7 - |pH - 13/2|) * 5),
         expectedYield := toString (jsRound (20 + nitrogen * 10)) ++ " tons/hectare" }]
      else [])
    ++ [{ name := "Lettuce",
          suitability := min 95 (70 + phosphorus * 100 + (8 - |pH - 34/5|) * 3),
          expectedYield := toString (jsRound (12 + phosphorus * 20)) ++ " tons/hectare" }]
    ++ (if (7:ℚ)/10 ≤ potassium then
      [{ name := "Pepper",
         suitability := min 95 (65 + potassium * 25 + (15/2 - |pH - 34/5|) * 4),
         expectedYield := toString (jsRound (15 + potassium * 8)) ++ " tons/hectare" }]
      else [])
  let recommendedCrops :=
    if recommendedCrops.length = 0 then
      [{ name := "Hardy Vegetables", suitability := 70,
         expectedYield := "10-15 tons/hectare" }]
    else recommendedCrops
  let nRatio : ℤ := 10
  let pRatio : ℤ := 10
  let kRatio : ℤ := 10
  let nRatio := if nitrogen < 4/5 then 15 else nRatio
  let nRatio := if nitrogen < 1/2 then 20 else nRatio
  let pRatio := if phosphorus < 3/20 then 15 else pRatio
  let pRatio := if phosphorus < 1/10 then 20 else pRatio
  let kRatio := if potassium < 9/10 then 15 else kRatio
  let kRatio := if potassium < 7/10 then 20 else kRatio
  let fertilizerCost :=
    jsRound (((nRatio + pRatio + kRatio : ℤ) : ℚ) * (5/2) + 100)
  { recommendedCrops := recommendedCrops.take 3,
    fertilizerRecommendation :=
      { npkRatio := toString nRatio ++ "-" ++ toString pRatio ++ "-" ++ toString kRatio,
        quantity :=
          toString (jsRound (150 + ((nRatio + pRatio + kRatio : ℤ) : ℚ) * 3))
            ++ " kg/hectare",
        estimatedCost := "$" ++ toString fertilizerCost },
    soilHealth := { status := soilStatus, improvements := improvements } }

/-- The static fallback result substituted by `handleSubmit` when the
recommendation call throws. -/
def fallbackResults : Recommendations :=
  { recommendedCrops :=
      [{ name := "Mixed Vegetables", suitability := 75,
         expectedYield := "15-20 tons/hectare" }],
    fertilizerRecommendation :=
      { npkRatio := "10-10-10",
        quantity := "200 kg/hectare",
        estimatedCost := "$150" },
    soilHealth :=
      { status := "Needs Analysis",
        improvements := ["Get detailed soil test", "Monitor nutrient levels"] } }

/-- The empty soil reading: every field absent. -/
def emptySoil : SoilData := {}

/-- C1 counterexample: on the input pH = 9, nitrogen = 0, potassium = 0,
the crop list is NOT the single entry ("Hardy Vegetables", 70): the
Lettuce entry is pushed unconditionally, so the fallback branch never
fires. -/
theorem C1_counterexample :
    ¬ ((generateRecommendations ⟨some 9, some 0, none, some 0, none⟩).recommendedCrops.map
        (fun c => (c.name, c.suitability)) = [("Hardy Vegetables", 70)]) := by
  with_unfolding_all decide

/-- C1 (amended): on the input pH = 9, nitrogen = 0, potassium = 0, the
zero nutrient values are defaulted (nitrogen to 0.8, potassium to 0.9)
and the crop list is exactly [Lettuce at 95, Pepper at 95]; no
"Hardy Vegetables" entry appears because Lettuce is always included,
making the fallback unreachable. -/
theorem C1_amended_crop_list :
    (generateRecommendations ⟨some 9, some 0, none, some 0, none⟩).recommendedCrops.map
        (fun c => (c.name, c.suitability)) = [("Lettuce", 95), ("Pepper", 95)] := by
  with_unfolding_all decide

/-- C6: the empty soil reading (all fields defaulted to pH 6.5, N 0.8,
P 0.15, K 0.9) yields NPK ratio "10-10-10", quantity 240 kg/hectare and
estimated cost $175. -/
theorem C6_empty_input_fertilizer :
    (generateRecommendations emptySoil).fertilizerRecommendation =
      { npkRatio := "10-10-10", quantity := "240 kg/hectare",
        estimatedCost := "$175" } := by
  with_unfolding_all decide

/-- C7 counterexample: on the empty soil reading the Lettuce suitability
is 95, not approximately 93: the uncapped value 70 + 15 + 3 × (8 − 0.3)
= 108.1 exceeds the 95 cap, and 95 is not within 1/2 of 93. -/
theorem C7_counterexample :
    ((generateRecommendations emptySoil).recommendedCrops.find?
        (fun c => c.name == "Lettuce")).map CropSuggestion.suitability = some 95 ∧
    ¬ (|(95 : ℚ) - 93| ≤ 1/2) := by
  with_unfolding_all decide

/-- C7 (amended): on the empty soil reading the Lettuce suitability
equals min(95, 70 + 15 + 3 × (8 − 0.3)), and that value is exactly 95
(the cap binds; the uncapped score is 108.1, not ≈ 93). -/
theorem C7_amended_lettuce_score :
    min (95 : ℚ) (70 + 15 + 3 * (8 - 3/10)) = 95 ∧
    ((generateRecommendations emptySoil).recommendedCrops.find?
        (fun c => c.name == "Lettuce")).map CropSuggestion.suitability = some 95 := by
  with_unfolding_all decide

/-- C8 counterexample: for pH = 6.5 and nitrogen = 0.9 the Tomato entry
is included with suitability 95, not 92: the pH-proximity term is
(7 − |6.5 − 6.5|) × 5 = 35, not 5 × 1, so the uncapped score is 122 and
the 95 cap binds. -/
theorem C8_counterexample :
    ((generateRecommendations ⟨some (13/2), some (9/10), none, none, none⟩).recommendedCrops.find?
        (fun c => c.name == "Tomato")).map CropSuggestion.suitability = some 95 ∧
    (95 : ℚ) ≠ 92 := by
  with_unfolding_all decide

/-- C8 (amended): for pH = 6.5 and nitrogen = 0.9 the crop list includes
a Tomato entry whose suitability equals
min(95, 60 + 0.9 × 30 + (7 − |6.5 − 6.5|) × 5) = min(95, 122) = 95. -/
theorem C8_amended_tomato_score :
    min (95 : ℚ) (60 + (9/10) * 30 + (7 - |(13/2 : ℚ) - 13/2|) * 5) = 95 ∧
    ((generateRecommendations ⟨some (13/2), some (9/10), none, none, none⟩).recommendedCrops.find?
        (fun c => c.name == "Tomato")).map CropSuggestion.suitability = some 95 := by
  with_unfolding_all decide

/-- C3: a missing field is replaced by its fixed constant before any
other step, so the calculator's output on an input with a field absent
equals its output on the same input with that field set to the constant
(pH 6.5, nitrogen 0.8, phosphorus 0.15, potassium 0.9). -/
theorem C3_missing_fields_defaulted (s : SoilData) :
    generateRecommendations { s with pH := none } =
      generateRecommendations { s with pH := some (13/2) } ∧
    generateRecommendations { s with nitrogen := none } =
      generateRecommendations { s with nitrogen := some (4/5) } ∧
    generateRecommendations { s with phosphorus := none } =
      generateRecommendations { s with phosphorus := some (3/20) } ∧
    generateRecommendations { s with potassium := none } =
      generateRecommendations { s with potassium := some (9/10) } := by
  refine ⟨?_, ?_, ?_, ?_⟩ <;>
    simp [generateRecommendations, jsOr]

/-- C9: a field equal to 0 is falsy in JavaScript, so the calculator
treats it exactly like a missing field: the output on an input with a
field set to 0 equals the output with that field absent. -/
theorem C9_zero_treated_as_missing (s : SoilData) :
    generateRecommendations { s with pH := some 0 } =
      generateRecommendations { s with pH := none } ∧
    generateRecommendations { s with nitrogen := some 0 } =
      generateRecommendations { s with nitrogen := none } ∧
    generateRecommendations { s with phosphorus := some 0 } =
      generateRecommendations { s with phosphorus := none } ∧
    generateRecommendations { s with potassium := some 0 } =
      generateRecommendations { s with potassium := none } := by
  refine ⟨?_, ?_, ?_, ?_⟩ <;>
    simp [generateRecommendations, jsOr]

/-- C4: the soil-health status is "Acidic" exactly when the defaulted pH
is below 6.0, "Alkaline" exactly when it is above 7.5, and "Good"
otherwise; concretely, pH 5.5 gives status "Acidic" with the lime
advisory and pH 8.0 gives status "Alkaline" with the sulfur advisory. -/
theorem C4_soil_status (s : SoilData) :
    ((generateRecommendations s).soilHealth.status = "Acidic" ↔
      jsOr s.pH (13/2) < 6) ∧
    ((generateRecommendations s).soilHealth.status = "Alkaline" ↔
      15/2 < jsOr s.pH (13/2)) ∧
    ((generateRecommendations s).soilHealth.status = "Good" ↔
      (¬ jsOr s.pH (13/2) < 6 ∧ ¬ 15/2 < jsOr s.pH (13/2))) ∧
    (generateRecommendations ⟨some (11/2), none, none, none, none⟩).soilHealth.status
      = "Acidic" ∧
    "Apply lime to increase pH" ∈
      (generateRecommendations ⟨some (11/2), none, none, none, none⟩).soilHealth.improvements ∧
    (generateRecommendations ⟨some 8, none, none, none, none⟩).soilHealth.status
      = "Alkaline" ∧
    "Apply sulfur to decrease pH" ∈
      (generateRecommendations ⟨some 8, none, none, none, none⟩).soilHealth.improvements := by
  refine ⟨?_, ?_, ?_, ?_, ?_, ?_, ?_⟩
  · simp only [generateRecommendations]
    split_ifs with h1 h2 <;> simp_all
  · simp only [generateRecommendations]
    split_ifs with h1 h2 <;> simp_all
    all_goals linarith
  · simp only [generateRecommendations]
    split_ifs with h1 h2 <;> simp_all
  · with_unfolding_all decide
  · with_unfolding_all decide
  · with_unfolding_all decide
  · with_unfolding_all decide

/-- C5: each NPK axis equals 20 when its nutrient is below the lower
threshold, else 15 when below the upper threshold, else 10 (the source
checks the 15-threshold first and the later 20-threshold overwrite wins
when both hold); concretely, potassium 0.5 gives ratio "10-10-20" and
excludes Pepper from the crop list. -/
theorem C5_npk_thresholds (s : SoilData) :
    ((generateRecommendations s).fertilizerRecommendation.npkRatio =
      toString (if jsOr s.nitrogen (4/5) < 1/2 then (20 : ℤ)
          else if jsOr s.nitrogen (4/5) < 4/5 then 15 else 10) ++ "-" ++
        toString (if jsOr s.phosphorus (3/20) < 1/10 then (20 : ℤ)
          else if jsOr s.phosphorus (3/20) < 3/20 then 15 else 10) ++ "-" ++
        toString (if jsOr s.potassium (9/10) < 7/10 then (20 : ℤ)
          else if jsOr s.potassium (9/10) < 9/10 then 15 else 10)) ∧
    (generateRecommendations ⟨none, none, none, some (1/2), none⟩).fertilizerRecommendation.npkRatio
      = "10-10-20" ∧
    (generateRecommendations ⟨none, none, none, some (1/2), none⟩).recommendedCrops.map
      CropSuggestion.name = ["Tomato", "Lettuce"] := by
  refine ⟨?_, ?_, ?_⟩
  · simp only [generateRecommendations]
  · with_unfolding_all decide
  · with_unfolding_all decide

/-- C2: for every soil reading the calculator is total and returns a
crop list with between 1 and 3 entries (together with exactly one
fertilizer record and one soil-health record, which the result type
carries by construction). -/
theorem C2_crop_list_length (s : SoilData) :
    1 ≤ (generateRecommendations s).recommendedCrops.length ∧
    (generateRecommendations s).recommendedCrops.length ≤ 3 := by
  simp only [generateRecommendations]
  split_ifs <;> simp_all [List.length]

/-- C10: every crop entry the user can see — any entry of the
calculator's list for any input, or of the static fallback list — has
suitability at most 95: computed scores are capped by min 95 and the
fixed entries use 70 and 75. -/
theorem C10_suitability_at_most_95 (s : SoilData) (c : CropSuggestion)
    (h : c ∈ (generateRecommendations s).recommendedCrops ∨
      c ∈ fallbackResults.recommendedCrops) :
    c.suitability ≤ 95 := by
  rcases h with h | h
  · simp only [generateRecommendations] at h
    replace h := List.take_subset 3 _ h
    split_ifs at h <;>
      simp only [List.mem_append, List.mem_cons, List.not_mem_nil, or_false,
        false_or] at h
    all_goals try (obtain h | h := h)
    all_goals try (obtain h | h := h)
    all_goals try (obtain h | h := h)
    all_goals first
      | exact min_le_left _ _
      | exact (by norm_num : (70 : ℚ) ≤ 95)
  · simp only [fallbackResults, List.mem_cons, List.not_mem_nil, or_false] at h
    obtain rfl := h
    exact (by norm_num : (75 : ℚ) ≤ 95)

/-- C10 witness: the fallback "Mixed Vegetables" entry, a member of the
fallback crop list, has suitability at most 95. -/
theorem C10_witness :
    (⟨"Mixed Vegetables", 75, "15-20 tons/hectare"⟩ : CropSuggestion).suitability ≤ 95 :=
  C10_suitability_at_most_95 emptySoil _ (Or.inr (by with_unfolding_all decide))
